import Mathlib

/-!
Verification development for the E57 spherical-image extractor
(`src/extractor.py`).  The pipeline is embedded shallowly:

* pure helpers of the source (`extract_spherical_representations`,
  the quaternion-reordering row construction, payload selection in
  `process_image`) become Lean functions;
* the stateful parts (directory creation, the coords ledger, image writes)
  become explicit state passing over `FsState`;
* external collaborators that the spec scopes out (the on-disk filesystem
  existence test, the pye57 container reader, the PIL decoder, the
  possibility of an OS write failure) are an environment record `PyEnv`,
  with the document model's optional fields taken from the spec's
  container-read interface (optional fields are absent values, not
  exceptions).

CSV lines are modelled structurally: `CsvLine.header` stands for the fixed
header line the orchestrator writes, `CsvLine.row r` for the comma-joined
data line of the record `r`.  A data line of the source (nine fields, the
middle seven the reprs of floats) is never textually equal to the header
line, so counting header lines of the real file and counting `CsvLine.header`
constructors agree.
-/

/-- A compressed image payload blob as exposed by a pye57 blob node:
`byteCount` is the declared length (`image_ref.byteCount()`), `data` the
underlying bytes. -/
structure Blob where
  byteCount : Nat
  data : List Nat
  deriving DecidableEq

/-- Reading the payload, `np.zeros(shape=byteCount)` followed by
`image_ref.read(buf, 0, byteCount)`:
the buffer handed to the decoder holds exactly `byteCount` bytes, the blob's
bytes padded with the zeros of the fresh buffer. -/
def blobRead (b : Blob) : List Nat :=
  (List.range b.byteCount).map (fun i => b.data.getD i 0)

/-- The spherical-representation structure node of an `images2D` entry:
at most one of the two encodings is meaningful, each exposed as an optional
blob (`sphericalRepresentation["jpegImage"]` / `["pngImage"]`). -/
structure SphericalNode where
  jpegImage : Option Blob
  pngImage : Option Blob
  deriving DecidableEq

/-- One entry of the document's `images2D` collection, with the optional
fields the source reads.  Field access on the container is modelled from the
spec's container-read interface: a missing field is an absent value. -/
structure ImageNode where
  sphericalRepresentation : Option SphericalNode
  associatedData3DGuid : Option String
  rlmsScanposGuid : Option String
  deriving DecidableEq

/-- One scan header (`e57_file.get_header(i)`): guid, name, translation
(3 components) and rotation, a quaternion stored in source order
(w, x, y, z), i.e. component 0 is w. -/
structure ScanHeader where
  guid : String
  name : String
  translation : Fin 3 → ℚ
  rotation : Fin 4 → ℚ

/-- An opened E57 container: `headers` in scan-index order (`scan_count` is
its length, `get_header i` its `i`-th element) and the `images2D`
collection in document order. -/
structure ScanDocument where
  headers : List ScanHeader
  images2D : List ImageNode

/-- PIL resampling filters relevant to the source. -/
inductive ResamplingFilter
  | nearest
  | bilinear
  | bicubic
  | lanczos
  deriving DecidableEq

/-- A decoded raster image; `resampledWith` remembers the filter of the
resize that produced it (`none` for a freshly decoded image). -/
structure PILImage where
  width : Nat
  height : Nat
  resampledWith : Option ResamplingFilter := none
  deriving DecidableEq

/-- Resizing, `img.resize((w, h), f)`: the result has exactly the requested
dimensions, whatever the input dimensions were. -/
def PILImage.resize (_img : PILImage) (size : Nat × Nat) (f : ResamplingFilter) :
    PILImage :=
  { width := size.1, height := size.2, resampledWith := some f }

/-- The observable effect of `img.save(path, format, quality=q)`. -/
structure WrittenImage where
  path : String
  format : String
  quality : Nat
  width : Nat
  height : Nat
  resample : Option ResamplingFilter
  deriving DecidableEq

/-- A line of the coords ledger: the fixed header line or the data line of
one output record. -/
structure OutputRecord where
  image_file_name : String
  image_path : String
  translation_x : ℚ
  translation_y : ℚ
  translation_z : ℚ
  rotation_x : ℚ
  rotation_y : ℚ
  rotation_z : ℚ
  rotation_w : ℚ

inductive CsvLine
  | header
  | row (r : OutputRecord)

/-- Is this ledger line the header line? -/
def isHeader : CsvLine → Bool
  | .header => true
  | .row _ => false

/-- Number of header lines of a ledger file. -/
def countHeader (ls : List CsvLine) : Nat :=
  ls.countP isHeader

/-- Number of data lines of a ledger file. -/
def countData (ls : List CsvLine) : Nat :=
  ls.countP (fun l => !isHeader l)

/-- Errors the pipeline can raise (Python exceptions). -/
inductive ExtractError
  | fileNotFound (path : String)
  | codecNoPayload
  | decodeFailure
  | saveFailure (path : String)
  deriving DecidableEq

/-- The file-system state the pipeline mutates: created directories, the
CSV files by path, and the trace of saved images. -/
structure FsState where
  dirs : List String
  files : String → Option (List CsvLine)
  images : List WrittenImage

/-- External collaborators: `os.path.exists`, the pye57 reader
(`E57(path)`), the PIL decoder (`Image.open` on the byte buffer; `none` is
a decode failure), and whether an image save raises an OS error at a given
path. -/
structure PyEnv where
  pathExists : String → Bool
  openE57 : String → ScanDocument
  decode : List Nat → Option PILImage
  saveFails : String → Bool

/-- Python `a or b` on optional values: the first operand when it is
present, otherwise the second. -/
def pyOr (a b : Option α) : Option α :=
  match a with
  | some x => some x
  | none => b

/-- The join key of an `images2D` node: `associatedData3DGuid` when that
field is present (its value even when empty), else the fallback
`rlms:scanposGuid` field (source lines 92-96). -/
def joinKeyOf (n : ImageNode) : Option String :=
  match n.associatedData3DGuid with
  | some g => some g
  | none => n.rlmsScanposGuid

/-- The loop body of `extract_spherical_representations`: skip a node with
no spherical payload, skip a node whose join key is absent or empty
(`if associated_guid:`), otherwise overwrite the index entry for the key. -/
def indexStep (m : String → Option SphericalNode) (image2D : ImageNode) :
    String → Option SphericalNode :=
  match image2D.sphericalRepresentation with
  | none => m
  | some sr =>
    match joinKeyOf image2D with
    | none => m
    | some g =>
      if g = "" then m
      else fun x => if x = g then some sr else m x

/-- The index builder `extract_spherical_representations` (source lines
65-101): fold the
`images2D` collection in document order into a guid → payload index,
starting from the empty dict, guarded by the `images2D` truthiness check. -/
def extract_spherical_representations (e57_file : ScanDocument) :
    String → Option SphericalNode :=
  if e57_file.images2D.isEmpty then fun _ => none
  else e57_file.images2D.foldl indexStep (fun _ => none)

/-- The codec `process_image` (source lines 104-134): select the JPEG payload if
present else the PNG payload, read its declared byte count, decode, resize
to 8192×4096 with LANCZOS, save as JPEG quality 50 at
`output_path/name.jpeg`.  Returns `(image_file_name, image_full_path,
written image)` or the exception. -/
def process_image (env : PyEnv) (spherical_representation : SphericalNode)
    (name : String) (output_path : String) :
    Except ExtractError (String × String × WrittenImage) :=
  match pyOr spherical_representation.jpegImage spherical_representation.pngImage with
  | none => .error .codecNoPayload
  | some image_ref =>
    let image_data := blobRead image_ref
    match env.decode image_data with
    | none => .error .decodeFailure
    | some img =>
      let img_resized := img.resize (8192, 4096) .lanczos
      let image_file_name := name ++ ".jpeg"
      let image_full_path := output_path ++ "/" ++ image_file_name
      if env.saveFails image_full_path then .error (.saveFailure image_full_path)
      else
        .ok (image_file_name, image_full_path,
          { path := image_full_path, format := "JPEG", quality := 50,
            width := img_resized.width, height := img_resized.height,
            resample := img_resized.resampledWith })

/-- The ledger row written for a joined scan (source lines 55-57): the
translation components in storage order, the rotation reordered from
storage order (w, x, y, z) to emitted order (x, y, z, w). -/
def mkRow (scan_header : ScanHeader) (image_file_name image_full_path : String) :
    OutputRecord :=
  { image_file_name := image_file_name
    image_path := image_full_path
    translation_x := scan_header.translation 0
    translation_y := scan_header.translation 1
    translation_z := scan_header.translation 2
    rotation_x := scan_header.rotation 1
    rotation_y := scan_header.rotation 2
    rotation_z := scan_header.rotation 3
    rotation_w := scan_header.rotation 0 }

/-- One iteration of the scan loop of `process_e57_file` (source lines
41-57): look the header's guid up in the index; skip silently when absent;
otherwise run the codec and, only when it succeeded, append the row to the
coords file (append mode creates the file when it is missing). -/
def process_scan (env : PyEnv) (output_path coords_file_path : String)
    (sphericals : String → Option SphericalNode) (scan_header : ScanHeader)
    (s : FsState) : FsState × Option ExtractError :=
  match sphericals scan_header.guid with
  | none => (s, none)
  | some sr =>
    match process_image env sr scan_header.name output_path with
    | .error e => (s, some e)
    | .ok (image_file_name, image_full_path, img) =>
      ({ s with
          images := s.images ++ [img]
          files := fun p =>
            if p = coords_file_path then
              some ((s.files coords_file_path).getD [] ++
                [CsvLine.row (mkRow scan_header image_file_name image_full_path)])
            else s.files p },
        none)

/-- The scan loop of `process_e57_file` over `range(num_scans)`, headers in
index order; a raised exception aborts the remaining scans. -/
def processScans (env : PyEnv) (output_path coords_file_path : String)
    (sphericals : String → Option SphericalNode) :
    List ScanHeader → FsState → FsState × Option ExtractError
  | [], s => (s, none)
  | scan_header :: rest, s =>
    match process_scan env output_path coords_file_path sphericals scan_header s with
    | (s', some e) => (s', some e)
    | (s', none) => processScans env output_path coords_file_path sphericals rest s'

/-- The per-file processor `process_e57_file` (source lines 17-62): raise
`FileNotFoundError`
when the path does not exist, else open the container, build the spherical
index and run the scan loop. -/
def process_e57_file (env : PyEnv) (file_path output_path coords_file_path : String)
    (s : FsState) : FsState × Option ExtractError :=
  if env.pathExists file_path = false then
    (s, some (.fileNotFound file_path))
  else
    let e57_file := env.openE57 file_path
    let spherical_representations := extract_spherical_representations e57_file
    processScans env output_path coords_file_path spherical_representations
      e57_file.headers s

/-- Python's `str.endswith`: is `suffix` a suffix of `s`? -/
def strEndsWith (s suffix : String) : Bool :=
  suffix.data.isSuffixOf s.data

/-- The parent directory `Path(p).parent` of a string path: the
path up to (and excluding) the last `/`. -/
def parentDir (p : String) : String :=
  String.mk (((p.data.reverse.dropWhile (fun c => c != '/')).drop 1).reverse)

/-- Directory creation, `create_directory_if_not_exist` (source lines 185-197). -/
def create_directory_if_not_exist (directory_path : String) (s : FsState) : FsState :=
  if directory_path ∈ s.dirs then s
  else { s with dirs := directory_path :: s.dirs }

/-- The initialisation the orchestrator performs before its loop (source
lines 150-158): create the output directory, then create the coords file
with exactly the header line iff it does not already exist. -/
def init_ledger (file_paths : List String) (s : FsState) : FsState :=
  let output_path := parentDir (file_paths.headD "") ++ "/output"
  let coords_file_path := output_path ++ "/coords.csv"
  let s1 := create_directory_if_not_exist output_path s
  if (s1.files coords_file_path).isSome then s1
  else
    { s1 with
        files := fun p =>
          if p = coords_file_path then some [CsvLine.header] else s1.files p }

/-- The file loop of `extract_spherical_images` (source lines 165-169):
skip entries not ending in `.e57`, process the rest in order, an exception
aborting the remaining entries. -/
def processFiles (env : PyEnv) (output_path coords_file_path : String) :
    List String → FsState → FsState × Option ExtractError
  | [], s => (s, none)
  | file_path :: rest, s =>
    if strEndsWith file_path ".e57" = false then
      processFiles env output_path coords_file_path rest s
    else
      match process_e57_file env file_path output_path coords_file_path s with
      | (s', some e) => (s', some e)
      | (s', none) => processFiles env output_path coords_file_path rest s'

/-- The orchestrator `extract_spherical_images` (source lines 137-169):
do nothing on an
empty selection, else derive the output directory from the first entry,
initialise directory and ledger, and run the file loop over the whole
list. -/
def extract_spherical_images (env : PyEnv) (file_paths : List String)
    (s : FsState) : FsState × Option ExtractError :=
  if file_paths.isEmpty then (s, none)
  else
    let output_path := parentDir (file_paths.headD "") ++ "/output"
    let coords_file_path := output_path ++ "/coords.csv"
    processFiles env output_path coords_file_path file_paths
      (init_ledger file_paths s)

/-- Does node `n` put an entry for key `g` into the index: it has a
spherical payload and its join key is the non-empty `g`. -/
def resolvesTo (n : ImageNode) (g : String) : Bool :=
  n.sphericalRepresentation.isSome && decide (joinKeyOf n = some g) && decide (g ≠ "")

/-- What one scan contributes, as a function of the inputs alone: the rows
and images it appends and the exception it raises. -/
def scanDelta (env : PyEnv) (output_path : String)
    (sphericals : String → Option SphericalNode) (scan_header : ScanHeader) :
    List CsvLine × List WrittenImage × Option ExtractError :=
  match sphericals scan_header.guid with
  | none => ([], [], none)
  | some sr =>
    match process_image env sr scan_header.name output_path with
    | .error e => ([], [], some e)
    | .ok (image_file_name, image_full_path, img) =>
      ([CsvLine.row (mkRow scan_header image_file_name image_full_path)], [img], none)

/-- What a document's scan loop contributes, aborting at a raised
exception. -/
def scansDelta (env : PyEnv) (output_path : String)
    (sphericals : String → Option SphericalNode) :
    List ScanHeader → List CsvLine × List WrittenImage × Option ExtractError
  | [] => ([], [], none)
  | scan_header :: rest =>
    let d := scanDelta env output_path sphericals scan_header
    match d.2.2 with
    | some e => (d.1, d.2.1, some e)
    | none =>
      let dt := scansDelta env output_path sphericals rest
      (d.1 ++ dt.1, d.2.1 ++ dt.2.1, dt.2.2)

/-- What processing one file contributes. -/
def fileDelta (env : PyEnv) (output_path file_path : String) :
    List CsvLine × List WrittenImage × Option ExtractError :=
  if env.pathExists file_path = false then ([], [], some (.fileNotFound file_path))
  else
    let e57_file := env.openE57 file_path
    scansDelta env output_path (extract_spherical_representations e57_file)
      e57_file.headers

/-- What the whole file loop contributes. -/
def filesDelta (env : PyEnv) (output_path : String) :
    List String → List CsvLine × List WrittenImage × Option ExtractError
  | [] => ([], [], none)
  | file_path :: rest =>
    if strEndsWith file_path ".e57" = false then filesDelta env output_path rest
    else
      let d := fileDelta env output_path file_path
      match d.2.2 with
      | some e => (d.1, d.2.1, some e)
      | none =>
        let dt := filesDelta env output_path rest
        (d.1 ++ dt.1, d.2.1 ++ dt.2.1, dt.2.2)

/-! Concrete fixtures used to instantiate the theorems below on closed
inputs: a one-scan document whose single image node joins to the scan. -/

def blob0 : Blob :=
  { byteCount := 4, data := [1, 2, 3, 4] }

def sr0 : SphericalNode :=
  { jpegImage := some blob0, pngImage := none }

def srEmpty : SphericalNode :=
  { jpegImage := none, pngImage := none }

def node0 : ImageNode :=
  { sphericalRepresentation := some sr0
    associatedData3DGuid := some "g"
    rlmsScanposGuid := none }

def nodeKeyless : ImageNode :=
  { sphericalRepresentation := some sr0
    associatedData3DGuid := none
    rlmsScanposGuid := none }

def hdr0 : ScanHeader :=
  { guid := "g", name := "scan0", translation := ![5, 6, 7], rotation := ![1, 0, 0, 0] }

def doc0 : ScanDocument :=
  { headers := [hdr0], images2D := [node0] }

def env0 : PyEnv :=
  { pathExists := fun p => p == "/a/x.e57"
    openE57 := fun _ => doc0
    decode := fun _ => some { width := 100, height := 50 }
    saveFails := fun _ => false }

def envBad : PyEnv :=
  { pathExists := env0.pathExists
    openE57 := env0.openE57
    decode := fun _ => none
    saveFails := fun _ => false }

def s0 : FsState :=
  { dirs := [], files := fun _ => none, images := [] }

def sLedger : FsState :=
  { dirs := []
    files := fun p => if p = "/a/output/coords.csv" then some [] else none
    images := [] }

def wimg0 : WrittenImage :=
  { path := "/a/output/scan0.jpeg", format := "JPEG", quality := 50
    width := 8192, height := 4096, resample := some ResamplingFilter.lanczos }

theorem process_scan_spec (env : PyEnv) (output_path coords_file_path : String)
    (sphericals : String → Option SphericalNode) (scan_header : ScanHeader)
    (s : FsState) (c : List CsvLine) (hc : s.files coords_file_path = some c) :
    (process_scan env output_path coords_file_path sphericals scan_header s).1.files
        coords_file_path =
      some (c ++ (scanDelta env output_path sphericals scan_header).1) ∧
    (process_scan env output_path coords_file_path sphericals scan_header s).1.images =
      s.images ++ (scanDelta env output_path sphericals scan_header).2.1 ∧
    (process_scan env output_path coords_file_path sphericals scan_header s).1.dirs =
      s.dirs ∧
    (process_scan env output_path coords_file_path sphericals scan_header s).2 =
      (scanDelta env output_path sphericals scan_header).2.2 := by
  cases hs : sphericals scan_header.guid with
  | none => simp [process_scan, scanDelta, hs, hc]
  | some sr =>
    cases hp : process_image env sr scan_header.name output_path with
    | error e => simp [process_scan, scanDelta, hs, hp, hc]
    | ok v =>
      obtain ⟨fn, fp, img⟩ := v
      simp [process_scan, scanDelta, hs, hp, hc]

theorem processScans_spec (env : PyEnv) (output_path coords_file_path : String)
    (sphericals : String → Option SphericalNode) (hs : List ScanHeader) :
    ∀ (s : FsState) (c : List CsvLine), s.files coords_file_path = some c →
    (processScans env output_path coords_file_path sphericals hs s).1.files
        coords_file_path =
      some (c ++ (scansDelta env output_path sphericals hs).1) ∧
    (processScans env output_path coords_file_path sphericals hs s).1.images =
      s.images ++ (scansDelta env output_path sphericals hs).2.1 ∧
    (processScans env output_path coords_file_path sphericals hs s).1.dirs =
      s.dirs ∧
    (processScans env output_path coords_file_path sphericals hs s).2 =
      (scansDelta env output_path sphericals hs).2.2 := by
  induction hs with
  | nil => intro s c hc; simp [processScans, scansDelta, hc]
  | cons h t ih =>
    intro s c hc
    have hone := process_scan_spec env output_path coords_file_path sphericals h s c hc
    cases hrun : process_scan env output_path coords_file_path sphericals h s with
    | mk s' e =>
      rw [hrun] at hone
      obtain ⟨h1, h2, h3, h4⟩ := hone
      simp only at h1 h2 h3 h4
      cases hd : (scanDelta env output_path sphericals h).2.2 with
      | some err =>
        rw [hd] at h4
        subst h4
        simp only [processScans, scansDelta, hrun, hd]
        exact ⟨h1, h2, h3, trivial⟩
      | none =>
        rw [hd] at h4
        subst h4
        have iht := ih s' (c ++ (scanDelta env output_path sphericals h).1) h1
        obtain ⟨i1, i2, i3, i4⟩ := iht
        simp only [processScans, scansDelta, hrun, hd]
        refine ⟨?_, ?_, ?_, i4⟩
        · rw [i1, List.append_assoc]
        · rw [i2, h2, List.append_assoc]
        · rw [i3, h3]

theorem process_e57_file_spec (env : PyEnv)
    (file_path output_path coords_file_path : String)
    (s : FsState) (c : List CsvLine) (hc : s.files coords_file_path = some c) :
    (process_e57_file env file_path output_path coords_file_path s).1.files
        coords_file_path =
      some (c ++ (fileDelta env output_path file_path).1) ∧
    (process_e57_file env file_path output_path coords_file_path s).1.images =
      s.images ++ (fileDelta env output_path file_path).2.1 ∧
    (process_e57_file env file_path output_path coords_file_path s).1.dirs =
      s.dirs ∧
    (process_e57_file env file_path output_path coords_file_path s).2 =
      (fileDelta env output_path file_path).2.2 := by
  by_cases hex : env.pathExists file_path = false
  · simp [process_e57_file, fileDelta, hex, hc]
  · simp only [process_e57_file, fileDelta, hex, if_false]
    exact processScans_spec env output_path coords_file_path
      (extract_spherical_representations (env.openE57 file_path))
      (env.openE57 file_path).headers s c hc

theorem if_true_eq_false {α : Sort u} (a b : α) :
    (if (true : Bool) = false then a else b) = b :=
  if_neg (by decide)

theorem if_false_eq_false {α : Sort u} (a b : α) :
    (if (false : Bool) = false then a else b) = a :=
  if_pos rfl

theorem processFiles_spec (env : PyEnv) (output_path coords_file_path : String)
    (l : List String) :
    ∀ (s : FsState) (c : List CsvLine), s.files coords_file_path = some c →
    (processFiles env output_path coords_file_path l s).1.files coords_file_path =
      some (c ++ (filesDelta env output_path l).1) ∧
    (processFiles env output_path coords_file_path l s).1.images =
      s.images ++ (filesDelta env output_path l).2.1 ∧
    (processFiles env output_path coords_file_path l s).1.dirs = s.dirs ∧
    (processFiles env output_path coords_file_path l s).2 =
      (filesDelta env output_path l).2.2 := by
  induction l with
  | nil => intro s c hc; simp [processFiles, filesDelta, hc]
  | cons fp t ih =>
    intro s c hc
    cases hext : strEndsWith fp ".e57" with
    | false =>
      simp only [processFiles, filesDelta, hext, if_true_eq_false, if_false_eq_false]
      exact ih s c hc
    | true =>
      have hone := process_e57_file_spec env fp output_path coords_file_path s c hc
      cases hrun : process_e57_file env fp output_path coords_file_path s with
      | mk s' e =>
        rw [hrun] at hone
        obtain ⟨h1, h2, h3, h4⟩ := hone
        simp only at h1 h2 h3 h4
        cases hd : (fileDelta env output_path fp).2.2 with
        | some err =>
          rw [hd] at h4
          subst h4
          simp only [processFiles, filesDelta, hext, if_true_eq_false, if_false_eq_false, hrun, hd]
          exact ⟨h1, h2, h3, trivial⟩
        | none =>
          rw [hd] at h4
          subst h4
          have iht := ih s' (c ++ (fileDelta env output_path fp).1) h1
          obtain ⟨i1, i2, i3, i4⟩ := iht
          simp only [processFiles, filesDelta, hext, if_true_eq_false, if_false_eq_false, hrun, hd]
          refine ⟨?_, ?_, ?_, i4⟩
          · rw [i1, List.append_assoc]
          · rw [i2, h2, List.append_assoc]
          · rw [i3, h3]

theorem processScans_append (env : PyEnv) (output_path coords_file_path : String)
    (sphericals : String → Option SphericalNode) (l1 l2 : List ScanHeader) :
    ∀ s : FsState,
    processScans env output_path coords_file_path sphericals (l1 ++ l2) s =
      match processScans env output_path coords_file_path sphericals l1 s with
      | (s', some e) => (s', some e)
      | (s', none) => processScans env output_path coords_file_path sphericals l2 s' := by
  induction l1 with
  | nil => intro s; simp [processScans]
  | cons h t ih =>
    intro s
    simp only [List.cons_append, processScans]
    cases process_scan env output_path coords_file_path sphericals h s with
    | mk s' e =>
      cases e with
      | some err => simp
      | none => simp only; exact ih s'

theorem processFiles_append (env : PyEnv) (output_path coords_file_path : String)
    (l1 l2 : List String) :
    ∀ s : FsState,
    processFiles env output_path coords_file_path (l1 ++ l2) s =
      match processFiles env output_path coords_file_path l1 s with
      | (s', some e) => (s', some e)
      | (s', none) => processFiles env output_path coords_file_path l2 s' := by
  induction l1 with
  | nil => intro s; simp [processFiles]
  | cons fp t ih =>
    intro s
    cases hext : strEndsWith fp ".e57" with
    | false =>
      simp only [List.cons_append, processFiles, hext, if_true_eq_false, if_false_eq_false]
      exact ih s
    | true =>
      simp only [List.cons_append, processFiles, hext, if_true_eq_false, if_false_eq_false]
      cases process_e57_file env fp output_path coords_file_path s with
      | mk s' e =>
        cases e with
        | some err => simp
        | none => simp only; exact ih s'

theorem extract_eq_foldl (d : ScanDocument) :
    extract_spherical_representations d =
      d.images2D.foldl indexStep (fun _ => none) := by
  unfold extract_spherical_representations
  cases h : d.images2D with
  | nil => simp
  | cons a t => simp

theorem resolvesTo_iff (n : ImageNode) (g : String) :
    resolvesTo n g = true ↔
      n.sphericalRepresentation.isSome = true ∧ joinKeyOf n = some g ∧ g ≠ "" := by
  simp [resolvesTo, and_assoc]

theorem indexStep_apply (m : String → Option SphericalNode) (n : ImageNode)
    (g : String) :
    indexStep m n g =
      if resolvesTo n g then n.sphericalRepresentation else m g := by
  by_cases hres : resolvesTo n g = true
  · rw [if_pos hres]
    obtain ⟨h1, h2, h3⟩ := (resolvesTo_iff n g).mp hres
    obtain ⟨sr, hsr⟩ := Option.isSome_iff_exists.mp h1
    simp [indexStep, hsr, h2, h3]
  · have hres' : resolvesTo n g = false := by
      cases hb : resolvesTo n g
      · rfl
      · exact absurd hb hres
    rw [if_neg hres]
    cases hsr : n.sphericalRepresentation with
    | none => simp [indexStep, hsr]
    | some sr =>
      cases hk : joinKeyOf n with
      | none => simp [indexStep, hsr, hk]
      | some k =>
        by_cases hke : k = ""
        · simp [indexStep, hsr, hk, hke]
        · have hgk : ¬g = k := by
            intro hgk
            subst hgk
            have hx : resolvesTo n g = true :=
              (resolvesTo_iff n g).mpr ⟨by simp [hsr], hk, hke⟩
            rw [hx] at hres'
            cases hres'
          simp [indexStep, hsr, hk, hke, hgk]

theorem foldl_indexStep_find (l : List ImageNode) :
    ∀ (m : String → Option SphericalNode) (g : String),
      l.foldl indexStep m g =
        match l.reverse.find? (fun n => resolvesTo n g) with
        | some n => n.sphericalRepresentation
        | none => m g := by
  induction l with
  | nil => intro m g; simp
  | cons n t ih =>
    intro m g
    rw [List.foldl_cons, ih (indexStep m n) g, List.reverse_cons, List.find?_append]
    cases hfind : t.reverse.find? (fun x => resolvesTo x g) with
    | some x => simp
    | none =>
      cases hres : resolvesTo n g with
      | true => simp [List.find?, hres, indexStep_apply]
      | false => simp [List.find?, hres, indexStep_apply]

theorem scanDelta_no_header (env : PyEnv) (output_path : String)
    (sphericals : String → Option SphericalNode) (scan_header : ScanHeader) :
    countHeader (scanDelta env output_path sphericals scan_header).1 = 0 := by
  cases h1 : sphericals scan_header.guid with
  | none => simp [scanDelta, countHeader, h1]
  | some sr =>
    cases h2 : process_image env sr scan_header.name output_path with
    | error e => simp [scanDelta, countHeader, h1, h2]
    | ok v =>
      obtain ⟨fn, fp, img⟩ := v
      simp [scanDelta, countHeader, h1, h2, isHeader]

theorem scansDelta_no_header (env : PyEnv) (output_path : String)
    (sphericals : String → Option SphericalNode) (hs : List ScanHeader) :
    countHeader (scansDelta env output_path sphericals hs).1 = 0 := by
  induction hs with
  | nil => rfl
  | cons h t ih =>
    have h1 := scanDelta_no_header env output_path sphericals h
    cases hd : (scanDelta env output_path sphericals h).2.2 with
    | some e =>
      simp only [scansDelta, hd]
      exact h1
    | none =>
      simp only [scansDelta, hd, countHeader] at h1 ih ⊢
      simp [List.countP_append, h1, ih]

theorem fileDelta_no_header (env : PyEnv) (output_path file_path : String) :
    countHeader (fileDelta env output_path file_path).1 = 0 := by
  cases hex : env.pathExists file_path with
  | false =>
    simp only [fileDelta, hex, if_false_eq_false]
    rfl
  | true =>
    simp only [fileDelta, hex, if_true_eq_false]
    exact scansDelta_no_header env output_path
      (extract_spherical_representations (env.openE57 file_path))
      (env.openE57 file_path).headers

theorem filesDelta_no_header (env : PyEnv) (output_path : String)
    (l : List String) :
    countHeader (filesDelta env output_path l).1 = 0 := by
  induction l with
  | nil => rfl
  | cons fp t ih =>
    have h1 := fileDelta_no_header env output_path fp
    cases hext : strEndsWith fp ".e57" with
    | false =>
      simp only [filesDelta, hext, if_false_eq_false]
      exact ih
    | true =>
      cases hd : (fileDelta env output_path fp).2.2 with
      | some e =>
        simp only [filesDelta, hext, if_true_eq_false, hd]
        exact h1
      | none =>
        simp only [filesDelta, hext, if_true_eq_false, hd, countHeader] at h1 ih ⊢
        simp [List.countP_append, h1, ih]

theorem countData_of_no_header (ls : List CsvLine) (h : countHeader ls = 0) :
    countData ls = ls.length := by
  rw [countHeader, List.countP_eq_zero] at h
  rw [countData, List.countP_eq_length]
  intro a ha
  simp [h a ha]

theorem indexStep_skip (m : String → Option SphericalNode) (n : ImageNode)
    (hk : joinKeyOf n = none) : indexStep m n = m := by
  cases hsr : n.sphericalRepresentation with
  | none => simp [indexStep, hsr]
  | some sr => simp [indexStep, hsr, hk]

/-- Claim C3: for every document, the spherical-index entry of a guid is
the spherical payload of the last node in document order that resolves to
that guid (has a spherical payload and that non-empty join key); in
particular, when two or more nodes resolve to the same guid the later one
overwrites the earlier (last-write-wins), not an error. -/
theorem c3_last_write_wins (doc : ScanDocument) (g : String) :
    extract_spherical_representations doc g =
      (doc.images2D.reverse.find? (fun n => resolvesTo n g)).bind
        (fun n => n.sphericalRepresentation) := by
  rw [extract_eq_foldl, foldl_indexStep_find]
  cases doc.images2D.reverse.find? (fun n => resolvesTo n g) with
  | none => rfl
  | some n => rfl

/-- Claim C5: the Image Codec selects the JPEG payload when present and
otherwise the PNG payload; the buffer it decodes holds exactly the
payload's declared byte count; and when neither payload is present
`process_image` fails with a decode-stage error instead of skipping or
producing output. -/
theorem c5_payload_selection (env : PyEnv) (sr : SphericalNode)
    (name output_path : String) :
    (∀ b : Blob, sr.jpegImage = some b →
      pyOr sr.jpegImage sr.pngImage = some b) ∧
    (sr.jpegImage = none →
      pyOr sr.jpegImage sr.pngImage = sr.pngImage) ∧
    (∀ b : Blob, (blobRead b).length = b.byteCount) ∧
    (∀ b : Blob, pyOr sr.jpegImage sr.pngImage = some b →
      env.decode (blobRead b) = none →
      process_image env sr name output_path = .error .decodeFailure) ∧
    (sr.jpegImage = none → sr.pngImage = none →
      process_image env sr name output_path = .error .codecNoPayload) := by
  refine ⟨?_, ?_, ?_, ?_, ?_⟩
  · intro b hb; simp [pyOr, hb]
  · intro hb; simp [pyOr, hb]
  · intro b; simp [blobRead]
  · intro b hsel hdec; simp [process_image, hsel, hdec]
  · intro hj hp; simp [process_image, pyOr, hj, hp]

theorem c5_payload_selection_witness :
    pyOr sr0.jpegImage sr0.pngImage = some blob0 ∧
    process_image envBad sr0 "n" "/a/output" =
      Except.error ExtractError.decodeFailure ∧
    process_image env0 srEmpty "n" "/a/output" =
      Except.error ExtractError.codecNoPayload :=
  ⟨(c5_payload_selection env0 sr0 "n" "/a/output").1 blob0 rfl,
   (c5_payload_selection envBad sr0 "n" "/a/output").2.2.2.1 blob0 rfl rfl,
   (c5_payload_selection env0 srEmpty "n" "/a/output").2.2.2.2 rfl rfl⟩

/-- Claim C6: the Spherical Index Builder takes `associatedData3DGuid` as
the join key when present and falls back to the `rlms:scanposGuid` field
when it is absent; a spherical-payload node with neither key is skipped
without an error and without an index entry, index building completing on
the remaining nodes unchanged. -/
theorem c6_join_key_fallback :
    (∀ (n : ImageNode) (g : String), n.associatedData3DGuid = some g →
      joinKeyOf n = some g) ∧
    (∀ n : ImageNode, n.associatedData3DGuid = none →
      joinKeyOf n = n.rlmsScanposGuid) ∧
    (∀ (hs : List ScanHeader) (pre post : List ImageNode) (n : ImageNode),
      n.sphericalRepresentation.isSome = true → joinKeyOf n = none →
      extract_spherical_representations ⟨hs, pre ++ n :: post⟩ =
        extract_spherical_representations ⟨hs, pre ++ post⟩) := by
  refine ⟨?_, ?_, ?_⟩
  · intro n g hg; simp [joinKeyOf, hg]
  · intro n hg; simp [joinKeyOf, hg]
  · intro hs pre post n _ hk
    rw [extract_eq_foldl, extract_eq_foldl]
    show (pre ++ n :: post).foldl indexStep (fun _ => none) =
      (pre ++ post).foldl indexStep (fun _ => none)
    rw [List.foldl_append, List.foldl_append, List.foldl_cons,
      indexStep_skip _ n hk]

theorem c6_join_key_fallback_witness :
    joinKeyOf node0 = some "g" ∧
    nodeKeyless.sphericalRepresentation.isSome = true ∧
    joinKeyOf nodeKeyless = none ∧
    extract_spherical_representations ⟨[], [nodeKeyless]⟩ =
      extract_spherical_representations ⟨[], []⟩ :=
  ⟨c6_join_key_fallback.1 node0 "g" rfl, rfl, rfl,
   c6_join_key_fallback.2.2 [] [] [] nodeKeyless rfl rfl⟩

theorem if_true_eq_true {α : Sort u} (a b : α) :
    (if (true : Bool) = true then a else b) = a :=
  if_pos rfl

theorem if_false_eq_true {α : Sort u} (a b : α) :
    (if (false : Bool) = true then a else b) = b :=
  if_neg (by decide)

/-- Claim C9: every image the codec successfully emits is written to
`output_path/name.jpeg`, has exactly 8192×4096 pixels produced by the
LANCZOS (not nearest-neighbour) filter, and is encoded as JPEG at quality
50, whatever the decoded input's native resolution was. -/
theorem c9_canonical_output (env : PyEnv) (sr : SphericalNode)
    (name output_path : String) (fn fp : String) (img : WrittenImage)
    (hok : process_image env sr name output_path = .ok (fn, fp, img)) :
    fn = name ++ ".jpeg" ∧
    fp = output_path ++ "/" ++ (name ++ ".jpeg") ∧
    img.path = fp ∧
    img.format = "JPEG" ∧
    img.quality = 50 ∧
    img.width = 8192 ∧
    img.height = 4096 ∧
    img.resample = some ResamplingFilter.lanczos := by
  simp only [process_image] at hok
  cases hsel : pyOr sr.jpegImage sr.pngImage with
  | none => simp [hsel] at hok
  | some b =>
    simp only [hsel] at hok
    cases hdec : env.decode (blobRead b) with
    | none => simp [hdec] at hok
    | some im =>
      simp only [hdec, PILImage.resize] at hok
      cases hsv : env.saveFails (output_path ++ "/" ++ (name ++ ".jpeg")) with
      | true => rw [hsv, if_true_eq_true] at hok; simp at hok
      | false =>
        rw [hsv, if_false_eq_true] at hok
        rw [Except.ok.injEq, Prod.mk.injEq, Prod.mk.injEq] at hok
        obtain ⟨h1, h2, h3⟩ := hok
        subst h1
        subst h2
        subst h3
        exact ⟨rfl, rfl, rfl, rfl, rfl, rfl, rfl, rfl⟩

theorem c9_canonical_output_witness :
    process_image env0 sr0 "scan0" "/a/output" =
      Except.ok ("scan0.jpeg", "/a/output/scan0.jpeg", wimg0) ∧
    ("scan0.jpeg" = "scan0" ++ ".jpeg" ∧
     "/a/output/scan0.jpeg" = "/a/output" ++ "/" ++ ("scan0" ++ ".jpeg") ∧
     wimg0.path = "/a/output/scan0.jpeg" ∧
     wimg0.format = "JPEG" ∧
     wimg0.quality = 50 ∧
     wimg0.width = 8192 ∧
     wimg0.height = 4096 ∧
     wimg0.resample = some ResamplingFilter.lanczos) :=
  ⟨rfl, c9_canonical_output env0 sr0 "scan0" "/a/output"
    "scan0.jpeg" "/a/output/scan0.jpeg" wimg0 rfl⟩

/-- Claim C1: for a scan header joined to a spherical payload, the
appended ledger row emits the header's rotation components in the fixed
permuted order (x,y,z,w) of the source storage order (w,x,y,z):
`rotation_x` is source component 1, `rotation_y` component 2, `rotation_z`
component 3 and `rotation_w` component 0; in particular source rotation
(1,0,0,0) yields `rotation_x = 0`, `rotation_y = 0`, `rotation_z = 0`,
`rotation_w = 1`. -/
theorem c1_rotation_reorder (env : PyEnv) (output_path coords_file_path : String)
    (sphericals : String → Option SphericalNode) (scan_header : ScanHeader)
    (s : FsState) (sr : SphericalNode) (fn fp : String) (img : WrittenImage)
    (hidx : sphericals scan_header.guid = some sr)
    (hok : process_image env sr scan_header.name output_path = .ok (fn, fp, img)) :
    (process_scan env output_path coords_file_path sphericals scan_header s).1.files
        coords_file_path =
      some ((s.files coords_file_path).getD [] ++
        [CsvLine.row (mkRow scan_header fn fp)]) ∧
    (mkRow scan_header fn fp).rotation_x = scan_header.rotation 1 ∧
    (mkRow scan_header fn fp).rotation_y = scan_header.rotation 2 ∧
    (mkRow scan_header fn fp).rotation_z = scan_header.rotation 3 ∧
    (mkRow scan_header fn fp).rotation_w = scan_header.rotation 0 ∧
    (scan_header.rotation = ![1, 0, 0, 0] →
      (mkRow scan_header fn fp).rotation_x = 0 ∧
      (mkRow scan_header fn fp).rotation_y = 0 ∧
      (mkRow scan_header fn fp).rotation_z = 0 ∧
      (mkRow scan_header fn fp).rotation_w = 1) := by
  refine ⟨?_, rfl, rfl, rfl, rfl, ?_⟩
  · simp [process_scan, hidx, hok]
  · intro hrot
    refine ⟨?_, ?_, ?_, ?_⟩ <;> simp [mkRow, hrot]

theorem c1_rotation_reorder_witness :
    extract_spherical_representations doc0 hdr0.guid = some sr0 ∧
    process_image env0 sr0 hdr0.name "/a/output" =
      Except.ok ("scan0.jpeg", "/a/output/scan0.jpeg", wimg0) ∧
    ((process_scan env0 "/a/output" "/a/output/coords.csv"
        (extract_spherical_representations doc0) hdr0 s0).1.files
          "/a/output/coords.csv" =
      some ((s0.files "/a/output/coords.csv").getD [] ++
        [CsvLine.row (mkRow hdr0 "scan0.jpeg" "/a/output/scan0.jpeg")]) ∧
     (mkRow hdr0 "scan0.jpeg" "/a/output/scan0.jpeg").rotation_x = hdr0.rotation 1 ∧
     (mkRow hdr0 "scan0.jpeg" "/a/output/scan0.jpeg").rotation_y = hdr0.rotation 2 ∧
     (mkRow hdr0 "scan0.jpeg" "/a/output/scan0.jpeg").rotation_z = hdr0.rotation 3 ∧
     (mkRow hdr0 "scan0.jpeg" "/a/output/scan0.jpeg").rotation_w = hdr0.rotation 0 ∧
     (hdr0.rotation = ![1, 0, 0, 0] →
       (mkRow hdr0 "scan0.jpeg" "/a/output/scan0.jpeg").rotation_x = 0 ∧
       (mkRow hdr0 "scan0.jpeg" "/a/output/scan0.jpeg").rotation_y = 0 ∧
       (mkRow hdr0 "scan0.jpeg" "/a/output/scan0.jpeg").rotation_z = 0 ∧
       (mkRow hdr0 "scan0.jpeg" "/a/output/scan0.jpeg").rotation_w = 1)) :=
  ⟨rfl, rfl,
   c1_rotation_reorder env0 "/a/output" "/a/output/coords.csv"
     (extract_spherical_representations doc0) hdr0 s0 sr0
     "scan0.jpeg" "/a/output/scan0.jpeg" wimg0 rfl rfl⟩

theorem scansDelta_count (env : PyEnv) (output_path : String)
    (sphericals : String → Option SphericalNode) (hs : List ScanHeader)
    (hok : (scansDelta env output_path sphericals hs).2.2 = none) :
    (scansDelta env output_path sphericals hs).1.length =
      hs.countP (fun h => (sphericals h.guid).isSome) ∧
    (scansDelta env output_path sphericals hs).2.1.length =
      hs.countP (fun h => (sphericals h.guid).isSome) := by
  induction hs with
  | nil => exact ⟨rfl, rfl⟩
  | cons h t ih =>
    cases h1 : sphericals h.guid with
    | none =>
      have hd : scanDelta env output_path sphericals h = ([], [], none) := by
        simp [scanDelta, h1]
      simp only [scansDelta, hd] at hok ⊢
      obtain ⟨i1, i2⟩ := ih hok
      simp [List.countP_cons, h1, i1, i2]
    | some sr =>
      cases h2 : process_image env sr h.name output_path with
      | error e =>
        have hd : scanDelta env output_path sphericals h = ([], [], some e) := by
          simp [scanDelta, h1, h2]
        simp only [scansDelta, hd] at hok
        cases hok
      | ok v =>
        obtain ⟨fn, fp, img⟩ := v
        have hd : scanDelta env output_path sphericals h =
            ([CsvLine.row (mkRow h fn fp)], [img], none) := by
          simp [scanDelta, h1, h2]
        simp only [scansDelta, hd] at hok ⊢
        obtain ⟨i1, i2⟩ := ih hok
        refine ⟨?_, ?_⟩ <;> simp [List.countP_cons, h1, i1, i2]

/-- Claim C2: for a document whose processing completes without an
exception, the scan loop visits every header in index order, appends
exactly one ledger row and writes exactly one image per header whose guid
is indexed, and contributes nothing for a header whose guid is absent from
the index: the rows (and images) added equal the number of headers with
indexed guids. -/
theorem c2_rows_equal_indexed_headers (env : PyEnv)
    (file_path output_path coords_file_path : String)
    (s : FsState) (c : List CsvLine)
    (hc : s.files coords_file_path = some c)
    (hok : (process_e57_file env file_path output_path coords_file_path s).2 = none) :
    (((process_e57_file env file_path output_path coords_file_path s).1.files
        coords_file_path).getD []).length =
      c.length + (env.openE57 file_path).headers.countP (fun h =>
        (extract_spherical_representations (env.openE57 file_path) h.guid).isSome) ∧
    (process_e57_file env file_path output_path coords_file_path s).1.images.length =
      s.images.length + (env.openE57 file_path).headers.countP (fun h =>
        (extract_spherical_representations (env.openE57 file_path) h.guid).isSome) := by
  obtain ⟨h1, h2, h3, h4⟩ :=
    process_e57_file_spec env file_path output_path coords_file_path s c hc
  rw [hok] at h4
  cases hex : env.pathExists file_path with
  | false =>
    have hfd : fileDelta env output_path file_path =
        ([], [], some (.fileNotFound file_path)) := by
      simp [fileDelta, hex]
    rw [hfd] at h4
    cases h4
  | true =>
    have hfd : fileDelta env output_path file_path =
        scansDelta env output_path
          (extract_spherical_representations (env.openE57 file_path))
          (env.openE57 file_path).headers := by
      simp [fileDelta, hex]
    rw [hfd] at h1 h2 h4
    obtain ⟨l1, l2⟩ := scansDelta_count env output_path
      (extract_spherical_representations (env.openE57 file_path))
      (env.openE57 file_path).headers h4.symm
    constructor
    · rw [h1]
      simp [List.length_append, l1]
    · rw [h2]
      simp [List.length_append, l2]

theorem c2_rows_equal_indexed_headers_witness :
    sLedger.files "/a/output/coords.csv" = some [] ∧
    (process_e57_file env0 "/a/x.e57" "/a/output" "/a/output/coords.csv"
      sLedger).2 = none ∧
    ((((process_e57_file env0 "/a/x.e57" "/a/output" "/a/output/coords.csv"
        sLedger).1.files "/a/output/coords.csv").getD []).length =
      ([] : List CsvLine).length + (env0.openE57 "/a/x.e57").headers.countP (fun h =>
        (extract_spherical_representations (env0.openE57 "/a/x.e57") h.guid).isSome) ∧
     (process_e57_file env0 "/a/x.e57" "/a/output" "/a/output/coords.csv"
        sLedger).1.images.length =
      sLedger.images.length + (env0.openE57 "/a/x.e57").headers.countP (fun h =>
        (extract_spherical_representations (env0.openE57 "/a/x.e57") h.guid).isSome)) :=
  ⟨rfl, rfl,
   c2_rows_equal_indexed_headers env0 "/a/x.e57" "/a/output"
     "/a/output/coords.csv" sLedger [] rfl rfl⟩

/-- Claim C7: when the Image Codec fails for a joined scan (decode failure,
missing payload or image-write failure), no ledger row is appended for that
scan: the run of the scan loop through that scan returns exactly the state
reached before the failing scan, so the ledger file's contents are
unchanged by it (and no later scan runs). -/
theorem c7_no_row_on_codec_failure (env : PyEnv)
    (output_path coords_file_path : String)
    (sphericals : String → Option SphericalNode)
    (pre post : List ScanHeader) (scan_header : ScanHeader)
    (s s' : FsState) (sr : SphericalNode) (e : ExtractError)
    (hpre : processScans env output_path coords_file_path sphericals pre s =
      (s', none))
    (hidx : sphericals scan_header.guid = some sr)
    (herr : process_image env sr scan_header.name output_path = .error e) :
    processScans env output_path coords_file_path sphericals
      (pre ++ scan_header :: post) s = (s', some e) := by
  rw [processScans_append, hpre]
  have hstep : process_scan env output_path coords_file_path sphericals
      scan_header s' = (s', some e) := by
    simp [process_scan, hidx, herr]
  simp only [processScans, hstep]

theorem c7_no_row_on_codec_failure_witness :
    processScans envBad "/a/output" "/a/output/coords.csv"
      (extract_spherical_representations doc0) [] s0 = (s0, none) ∧
    extract_spherical_representations doc0 hdr0.guid = some sr0 ∧
    process_image envBad sr0 hdr0.name "/a/output" =
      Except.error ExtractError.decodeFailure ∧
    processScans envBad "/a/output" "/a/output/coords.csv"
      (extract_spherical_representations doc0) ([] ++ hdr0 :: []) s0 =
      (s0, some ExtractError.decodeFailure) :=
  ⟨rfl, rfl, rfl,
   c7_no_row_on_codec_failure envBad "/a/output" "/a/output/coords.csv"
     (extract_spherical_representations doc0) [] [] hdr0 s0 s0 sr0
     ExtractError.decodeFailure rfl rfl rfl⟩

theorem create_dir_files (p : String) (s : FsState) :
    (create_directory_if_not_exist p s).files = s.files := by
  by_cases h : p ∈ s.dirs
  · simp [create_directory_if_not_exist, h]
  · simp [create_directory_if_not_exist, h]

theorem create_dir_dirs_mem (p : String) (s : FsState) :
    p ∈ (create_directory_if_not_exist p s).dirs := by
  by_cases h : p ∈ s.dirs
  · simp [create_directory_if_not_exist, h]
  · simp [create_directory_if_not_exist, h]

theorem init_ledger_dirs (l : List String) (s : FsState) :
    parentDir (l.headD "") ++ "/output" ∈ (init_ledger l s).dirs := by
  have h := create_dir_dirs_mem (parentDir (l.headD "") ++ "/output") s
  simp only [init_ledger]
  split
  · exact h
  · exact h

theorem init_ledger_files_none (l : List String) (s : FsState)
    (h : s.files (parentDir (l.headD "") ++ "/output" ++ "/coords.csv") = none) :
    (init_ledger l s).files (parentDir (l.headD "") ++ "/output" ++ "/coords.csv") =
      some [CsvLine.header] := by
  simp only [List.headD_eq_head?_getD] at h
  simp [init_ledger, create_dir_files, h]

theorem init_ledger_files_some (l : List String) (s : FsState) (c : List CsvLine)
    (h : s.files (parentDir (l.headD "") ++ "/output" ++ "/coords.csv") = some c) :
    (init_ledger l s).files (parentDir (l.headD "") ++ "/output" ++ "/coords.csv") =
      some c := by
  simp only [List.headD_eq_head?_getD] at h
  simp [init_ledger, create_dir_files, h]

theorem extract_eq_processFiles (env : PyEnv) (l : List String) (s : FsState)
    (hne : l ≠ []) :
    extract_spherical_images env l s =
      processFiles env (parentDir (l.headD "") ++ "/output")
        (parentDir (l.headD "") ++ "/output" ++ "/coords.csv") l
        (init_ledger l s) := by
  unfold extract_spherical_images
  rw [if_neg]
  intro h
  exact hne (List.isEmpty_iff.mp h)

/-- Claim C8: a listed path that ends in the container extension `.e57`
but does not exist on disk makes processing raise a not-found hard error
carrying that path, and the error aborts the run: the returned state is
the one reached before the offending entry, so no subsequent entry of the
list is processed. -/
theorem c8_not_found_aborts (env : PyEnv) (s s' : FsState)
    (l1 l2 : List String) (p : String)
    (hpre : processFiles env (parentDir ((l1 ++ p :: l2).headD "") ++ "/output")
        (parentDir ((l1 ++ p :: l2).headD "") ++ "/output" ++ "/coords.csv") l1
        (init_ledger (l1 ++ p :: l2) s) = (s', none))
    (hext : strEndsWith p ".e57" = true)
    (hnf : env.pathExists p = false) :
    extract_spherical_images env (l1 ++ p :: l2) s =
      (s', some (.fileNotFound p)) := by
  rw [extract_eq_processFiles env (l1 ++ p :: l2) s (by simp)]
  rw [processFiles_append, hpre]
  have hstep : process_e57_file env p
      (parentDir ((l1 ++ p :: l2).headD "") ++ "/output")
      (parentDir ((l1 ++ p :: l2).headD "") ++ "/output" ++ "/coords.csv") s' =
      (s', some (.fileNotFound p)) := by
    simp [process_e57_file, hnf]
  simp only [processFiles, hext, if_true_eq_false, hstep]

theorem c8_not_found_aborts_witness :
    processFiles env0
      (parentDir ((["/a/missing.e57"] : List String).headD "") ++ "/output")
      (parentDir ((["/a/missing.e57"] : List String).headD "") ++ "/output" ++
        "/coords.csv")
      [] (init_ledger ["/a/missing.e57"] s0) =
      (init_ledger ["/a/missing.e57"] s0, none) ∧
    strEndsWith "/a/missing.e57" ".e57" = true ∧
    env0.pathExists "/a/missing.e57" = false ∧
    extract_spherical_images env0 ["/a/missing.e57"] s0 =
      (init_ledger ["/a/missing.e57"] s0,
       some (ExtractError.fileNotFound "/a/missing.e57")) :=
  ⟨rfl, rfl, rfl,
   c8_not_found_aborts env0 s0 (init_ledger ["/a/missing.e57"] s0) [] []
     "/a/missing.e57" rfl rfl rfl⟩

/-- Claim C4: for a non-empty batch, the ledger header line is written iff
the coords file does not already exist at the ledger path when the batch
starts (an existing file keeps its header count); running the same batch a
second time against the same output directory appends data rows without a
second header, so after two identical runs from a fresh directory the file
holds exactly one header line and twice the single-run number of data
lines. -/
theorem c4_ledger_header_idempotent (env : PyEnv) (l : List String) (s : FsState)
    (hne : l ≠ []) :
    (s.files (parentDir (l.headD "") ++ "/output" ++ "/coords.csv") = none →
      countHeader (((extract_spherical_images env l s).1.files
          (parentDir (l.headD "") ++ "/output" ++ "/coords.csv")).getD []) = 1 ∧
      countHeader (((extract_spherical_images env l
            (extract_spherical_images env l s).1).1.files
          (parentDir (l.headD "") ++ "/output" ++ "/coords.csv")).getD []) = 1 ∧
      countData (((extract_spherical_images env l
            (extract_spherical_images env l s).1).1.files
          (parentDir (l.headD "") ++ "/output" ++ "/coords.csv")).getD []) =
        2 * countData (((extract_spherical_images env l s).1.files
          (parentDir (l.headD "") ++ "/output" ++ "/coords.csv")).getD [])) ∧
    (∀ c, s.files (parentDir (l.headD "") ++ "/output" ++ "/coords.csv") = some c →
      countHeader (((extract_spherical_images env l s).1.files
          (parentDir (l.headD "") ++ "/output" ++ "/coords.csv")).getD []) =
        countHeader c) := by
  have hΔ := filesDelta_no_header env (parentDir (l.headD "") ++ "/output") l
  constructor
  · intro h0
    have hinit1 := init_ledger_files_none l s h0
    obtain ⟨f1, i1, d1, e1⟩ := processFiles_spec env
      (parentDir (l.headD "") ++ "/output")
      (parentDir (l.headD "") ++ "/output" ++ "/coords.csv") l
      (init_ledger l s) [CsvLine.header] hinit1
    rw [extract_eq_processFiles env l s hne]
    have hinit2 := init_ledger_files_some l
      (processFiles env (parentDir (l.headD "") ++ "/output")
        (parentDir (l.headD "") ++ "/output" ++ "/coords.csv") l
        (init_ledger l s)).1
      ([CsvLine.header] ++ (filesDelta env (parentDir (l.headD "") ++ "/output") l).1)
      f1
    obtain ⟨f2, i2, d2, e2⟩ := processFiles_spec env
      (parentDir (l.headD "") ++ "/output")
      (parentDir (l.headD "") ++ "/output" ++ "/coords.csv") l
      (init_ledger l
        (processFiles env (parentDir (l.headD "") ++ "/output")
          (parentDir (l.headD "") ++ "/output" ++ "/coords.csv") l
          (init_ledger l s)).1)
      ([CsvLine.header] ++ (filesDelta env (parentDir (l.headD "") ++ "/output") l).1)
      hinit2
    rw [extract_eq_processFiles env l
      (processFiles env (parentDir (l.headD "") ++ "/output")
        (parentDir (l.headD "") ++ "/output" ++ "/coords.csv") l
        (init_ledger l s)).1 hne]
    rw [f1, f2]
    have hdata := countData_of_no_header _ hΔ
    refine ⟨?_, ?_, ?_⟩
    · simp [countHeader, List.countP_append, isHeader]
      simpa [countHeader] using hΔ
    · simp [countHeader, List.countP_append, isHeader]
      simpa [countHeader] using hΔ
    · simp only [Option.getD_some, countData, List.countP_append]
      simp [countData] at hdata
      simp [isHeader, hdata]
      ring
  · intro c hc
    have hinit := init_ledger_files_some l s c hc
    obtain ⟨f1, i1, d1, e1⟩ := processFiles_spec env
      (parentDir (l.headD "") ++ "/output")
      (parentDir (l.headD "") ++ "/output" ++ "/coords.csv") l
      (init_ledger l s) c hinit
    rw [extract_eq_processFiles env l s hne, f1]
    simp only [Option.getD_some, countHeader, List.countP_append]
    simpa [countHeader] using hΔ

/-- Claim C10: for every non-empty input list, the orchestrator creates
the output directory (derived from the first entry's parent directory) and
the coords file with its header line (when absent) before any entry's
extension or existence is checked: whatever the entries are — all with
non-matching extensions, or the first entry nonexistent — the final state
has the output directory created and a coords file that exists and, when
it was initially absent, contains the header line. -/
theorem c10_init_before_entry_checks (env : PyEnv) (l : List String) (s : FsState)
    (hne : l ≠ []) :
    parentDir (l.headD "") ++ "/output" ∈ (extract_spherical_images env l s).1.dirs ∧
    ((extract_spherical_images env l s).1.files
        (parentDir (l.headD "") ++ "/output" ++ "/coords.csv")).isSome = true ∧
    (s.files (parentDir (l.headD "") ++ "/output" ++ "/coords.csv") = none →
      CsvLine.header ∈ (((extract_spherical_images env l s).1.files
        (parentDir (l.headD "") ++ "/output" ++ "/coords.csv")).getD [])) := by
  rw [extract_eq_processFiles env l s hne]
  cases h0 : s.files (parentDir (l.headD "") ++ "/output" ++ "/coords.csv") with
  | none =>
    have hinit := init_ledger_files_none l s h0
    obtain ⟨f1, i1, d1, e1⟩ := processFiles_spec env
      (parentDir (l.headD "") ++ "/output")
      (parentDir (l.headD "") ++ "/output" ++ "/coords.csv") l
      (init_ledger l s) [CsvLine.header] hinit
    refine ⟨?_, ?_, ?_⟩
    · rw [d1]; exact init_ledger_dirs l s
    · rw [f1]; rfl
    · intro _
      rw [f1]
      simp
  | some c =>
    have hinit := init_ledger_files_some l s c h0
    obtain ⟨f1, i1, d1, e1⟩ := processFiles_spec env
      (parentDir (l.headD "") ++ "/output")
      (parentDir (l.headD "") ++ "/output" ++ "/coords.csv") l
      (init_ledger l s) c hinit
    refine ⟨?_, ?_, ?_⟩
    · rw [d1]; exact init_ledger_dirs l s
    · rw [f1]; rfl
    · intro hnone
      cases hnone

theorem c4_ledger_header_idempotent_witness :
    (["/a/x.e57"] : List String) ≠ [] ∧
    s0.files (parentDir ((["/a/x.e57"] : List String).headD "") ++ "/output" ++
      "/coords.csv") = none ∧
    (countHeader (((extract_spherical_images env0 ["/a/x.e57"] s0).1.files
        (parentDir ((["/a/x.e57"] : List String).headD "") ++ "/output" ++
          "/coords.csv")).getD []) = 1 ∧
     countHeader (((extract_spherical_images env0 ["/a/x.e57"]
          (extract_spherical_images env0 ["/a/x.e57"] s0).1).1.files
        (parentDir ((["/a/x.e57"] : List String).headD "") ++ "/output" ++
          "/coords.csv")).getD []) = 1 ∧
     countData (((extract_spherical_images env0 ["/a/x.e57"]
          (extract_spherical_images env0 ["/a/x.e57"] s0).1).1.files
        (parentDir ((["/a/x.e57"] : List String).headD "") ++ "/output" ++
          "/coords.csv")).getD []) =
       2 * countData (((extract_spherical_images env0 ["/a/x.e57"] s0).1.files
        (parentDir ((["/a/x.e57"] : List String).headD "") ++ "/output" ++
          "/coords.csv")).getD [])) :=
  ⟨List.cons_ne_nil _ _, rfl,
   (c4_ledger_header_idempotent env0 ["/a/x.e57"] s0 (List.cons_ne_nil _ _)).1 rfl⟩

theorem c10_init_before_entry_checks_witness :
    (["/b/none.txt"] : List String) ≠ [] ∧
    parentDir ((["/b/none.txt"] : List String).headD "") ++ "/output" ∈
      (extract_spherical_images env0 ["/b/none.txt"] s0).1.dirs ∧
    ((extract_spherical_images env0 ["/b/none.txt"] s0).1.files
      (parentDir ((["/b/none.txt"] : List String).headD "") ++ "/output" ++
        "/coords.csv")).isSome = true ∧
    CsvLine.header ∈ (((extract_spherical_images env0 ["/b/none.txt"] s0).1.files
      (parentDir ((["/b/none.txt"] : List String).headD "") ++ "/output" ++
        "/coords.csv")).getD []) :=
  ⟨List.cons_ne_nil _ _,
   (c10_init_before_entry_checks env0 ["/b/none.txt"] s0 (List.cons_ne_nil _ _)).1,
   (c10_init_before_entry_checks env0 ["/b/none.txt"] s0 (List.cons_ne_nil _ _)).2.1,
   (c10_init_before_entry_checks env0 ["/b/none.txt"] s0 (List.cons_ne_nil _ _)).2.2 rfl⟩
